import Mathlib

/-!
Verification of the LaMetric iRacing notification pipeline (src/main.py).

The development shallowly embeds the notification-building and sending logic
of `MainWorker` (src/main.py): the flag scan and event diffing of
`process_data`, the duplicate suppression of `send_notification`, the
ratings fallback of `send_ratings` / `send_default_display`, the
connection handler `connected`, and the field formatting done in
`data_collection`.  Python floats that only ever hold exact telemetry
values are modelled as rationals; machine ints are modelled as `Int`/`Nat`
(the flag masks the code uses are non-negative, so `Nat` bitwise `&&&`
matches Python's `&` on these values).  GUI signal emissions, sleeps and
the HTTP transport itself are outside the embedding: transport outcomes
enter as an explicit `SendRes` input.
-/

namespace LametricIracing

/-- Wire frame: one (icon, text) pair, as the `Frame` dataclass. -/
structure Frame where
  icon : String
  text : String
deriving DecidableEq

/-- Wire model: cycles count plus frame list, as the `Model` dataclass. -/
structure Model where
  cycles : Nat
  frames : List Frame
deriving DecidableEq

/-- Wire notification payload, as the `Notification` dataclass.  Comparing
two of these by `=` is the Python comparison of their `to_dict()` values. -/
structure Notification where
  priority : String
  icon_type : String
  model : Model
deriving DecidableEq

/-- The fields of the `Data` dataclass that `process_data` reads.  The
source stores each as `None` until `data_collection` fills it; string
fields are `Option String` and the flags bitmask is a `Nat` (the source
initialises it to `None` but never reads it before `data_collection`
writes an int, so `0` is a harmless stand-in for the initial `None`).
Fields of `Data` that no claim-relevant code reads (fuel, temperatures,
last lap) are omitted; `copy_data` copies every modelled field. -/
structure Data where
  position : Option String := none
  laps : Option String := none
  best_laptime : Option String := none
  flags : Nat := 0
deriving DecidableEq

/-- Driver record populated by `connected` from the roster.  The source
keeps `safety_rating` as a `float` parsed from the second half of
`LicString` and re-renders it with an f-string; the claims never inspect
that text, so the embedding carries the parsed substring itself. -/
structure Driver where
  caridx : Int := 0
  name : String := ""
  irating : Nat := 0
  license_string : String := ""
  license_letter : String := ""
  safety_rating : String := ""
deriving DecidableEq

/-- The `Options` dataclass with its source defaults. -/
structure Options where
  enable_irating : Bool := true
  enable_license : Bool := true
  enable_flags : Bool := true
  enable_laps : Bool := true
  enable_bestlap : Bool := true
  enable_position : Bool := true
  default_display : String := "ratings"
deriving DecidableEq

/-- The source `Options()` with every toggle at its default. -/
def defaultOptions : Options := {}

/-- Mutable worker state relevant to the claims: the `sent_data` `Data`
object, and the `State` dataclass fields `previous_data_sent`,
`start_hidden_shown` and `ir_connected`. -/
structure WorkerState where
  sent_data : Data := {}
  previous_data_sent : Option Notification := none
  start_hidden_shown : Bool := false
  ir_connected : Bool := false
deriving DecidableEq

/-- One roster entry of `ir['DriverInfo']['Drivers']`, restricted to the
fields `connected` reads. -/
structure RosterEntry where
  CarIdx : Int
  UserName : String
  IRating : Nat
  LicString : String
deriving DecidableEq

/-- Outcome of one `call_lametric_api("send", ...)` call: no usable
response (exception, timeout, missing settings), a JSON response without
a `success` key, or a success response carrying the new notification id. -/
inductive SendRes where
  | noResponse : SendRes
  | noSuccess : SendRes
  | success : String → SendRes
deriving DecidableEq

/-- Flag bit constants, as imported by src/main.py from the `pyirsdk`
`Flags` class (the irsdk_Flags bitfield).  `servicible`, `start_ready`,
`start_set` and `start_go` are bits of the same bitfield that
`process_data` never scans. -/
def Flags.checkered : Nat := 0x0001
def Flags.white : Nat := 0x0002
def Flags.green : Nat := 0x0004
def Flags.yellow : Nat := 0x0008
def Flags.red : Nat := 0x0010
def Flags.blue : Nat := 0x0020
def Flags.debris : Nat := 0x0040
def Flags.crossed : Nat := 0x0080
def Flags.yellow_waving : Nat := 0x0100
def Flags.one_lap_to_green : Nat := 0x0200
def Flags.green_held : Nat := 0x0400
def Flags.ten_to_go : Nat := 0x0800
def Flags.five_to_go : Nat := 0x1000
def Flags.random_waving : Nat := 0x2000
def Flags.caution : Nat := 0x4000
def Flags.caution_waving : Nat := 0x8000
def Flags.black : Nat := 0x010000
def Flags.disqualify : Nat := 0x020000
def Flags.servicible : Nat := 0x040000
def Flags.furled : Nat := 0x080000
def Flags.repair : Nat := 0x100000
def Flags.start_hidden : Nat := 0x10000000
def Flags.start_ready : Nat := 0x20000000

/-- Icon identifiers from the `Icons` dataclass (only the ones the
embedded code paths use). -/
def Icons.ir : String := "i43085"
def Icons.start_hidden : String := "a43445"
def Icons.checkered : String := "a43490"
def Icons.white : String := "a43444"
def Icons.green : String := "a43445"
def Icons.yellow : String := "a43439"
def Icons.yellow_waving : String := "a43439"
def Icons.red : String := "a43491"
def Icons.blue : String := "a43495"
def Icons.debris : String := "a43497"
def Icons.green_held : String := "i43445"
def Icons.one_lap_to_green : String := "i43445"
def Icons.random_waving : String := "a43458"
def Icons.caution : String := "i43439"
def Icons.caution_waving : String := "a43439"
def Icons.black : String := "a43499"
def Icons.disqualify : String := "a43492"
def Icons.furled : String := "a43496"
def Icons.repair : String := "a43500"
def Icons.crossed : String := Icons.ir
def Icons.ten_to_go : String := Icons.ir
def Icons.five_to_go : String := Icons.ir
def Icons.license_letter_r : String := "i43591"
def Icons.license_letter_d : String := "i43592"
def Icons.license_letter_c : String := "i43593"
def Icons.license_letter_b : String := "i43594"
def Icons.license_letter_a : String := "i43595"
def Icons.license_letter_p : String := "i43596"
def Icons.purple : String := "43599"
def Icons.laps : String := "43645"
def Icons.position : String := "44149"
def Icons.gain_position : String := "a43651"
def Icons.lose_position : String := "a43652"

/-- Python truthiness of an optional string field of `Data`: `None` and
the empty string are falsy. -/
def truthy : Option String → Bool
  | none => false
  | some s => !s.isEmpty

/-- Python f-string rendering of an optional string: `None` prints as
the literal text `None`. -/
def optText : Option String → String
  | none => "None"
  | some s => s

/-- Python truthiness of `flags & bit`: the masked value is nonzero. -/
def hasFlag (flags bit : Nat) : Bool := decide (flags &&& bit ≠ 0)

/-- The fixed ordered table of (bit, frame) pairs scanned by the chain of
`if self.data.flags & Flags...` statements in `process_data`, in source
order.  Each `if` whose bit is set appends its frame and sets the local
`flag` variable, so the chain is exactly an in-order filter over this
table. -/
def flagTable : List (Nat × Frame) :=
  [(Flags.checkered, ⟨Icons.checkered, "Finish"⟩),
   (Flags.white, ⟨Icons.white, "White"⟩),
   (Flags.green, ⟨Icons.green, "Green"⟩),
   (Flags.yellow, ⟨Icons.yellow, "Yellow"⟩),
   (Flags.red, ⟨Icons.red, "Red"⟩),
   (Flags.blue, ⟨Icons.blue, "Blue"⟩),
   (Flags.debris, ⟨Icons.debris, "Debris"⟩),
   (Flags.crossed, ⟨Icons.crossed, "Crossed"⟩),
   (Flags.yellow_waving, ⟨Icons.yellow_waving, "Yellow"⟩),
   (Flags.one_lap_to_green, ⟨Icons.one_lap_to_green, "in 1 lap"⟩),
   (Flags.green_held, ⟨Icons.green_held, "Green"⟩),
   (Flags.ten_to_go, ⟨Icons.ten_to_go, "10 to go"⟩),
   (Flags.five_to_go, ⟨Icons.five_to_go, "5 to go"⟩),
   (Flags.random_waving, ⟨Icons.random_waving, "Random"⟩),
   (Flags.caution, ⟨Icons.caution, "Caution"⟩),
   (Flags.caution_waving, ⟨Icons.caution_waving, "Caution"⟩),
   (Flags.black, ⟨Icons.black, "Black"⟩),
   (Flags.disqualify, ⟨Icons.disqualify, "DQ"⟩),
   (Flags.furled, ⟨Icons.furled, "Warn"⟩),
   (Flags.repair, ⟨Icons.repair, "Damage"⟩)]

/-- Frames appended by the 20 non-start-hidden flag checks, in scan
order. -/
def flagScanFrames (flags : Nat) : List Frame :=
  (flagTable.filter (fun e => hasFlag flags e.1)).map (fun e => e.2)

/-- Value of the local `flag` variable after the scan: true iff any of
the 20 scanned non-start-hidden bits is set. -/
def flagActive (flags : Nat) : Bool :=
  flagTable.any (fun e => hasFlag flags e.1)

/-- The frame appended by the start-hidden branch. -/
def startFrame : Frame := ⟨Icons.start_hidden, "Start"⟩

/-- The start-hidden branch of the scan: appends its frame and latches
the `start_hidden_shown` guard when the bit is set and the guard is not
yet latched; returns (frames, updated guard). -/
def startHiddenScan (flags : Nat) (shown : Bool) : List Frame × Bool :=
  if hasFlag flags Flags.start_hidden && !shown then ([startFrame], true)
  else ([], shown)

/-- The best-lap branch of `process_data`: a frame fires when the field
is truthy, no flag is active, it differs from the sent value, and the
toggle is on. -/
def bestLapFrames (opts : Options) (sent da : Data) (fl : Bool) : List Frame :=
  if truthy da.best_laptime && !fl &&
      decide (sent.best_laptime ≠ da.best_laptime) && opts.enable_bestlap then
    [⟨Icons.purple, optText da.best_laptime⟩]
  else []

/-- Python string `<`: lexicographic comparison of the code-point
sequences. -/
def pyStrLtChars : List Char → List Char → Bool
  | [], [] => false
  | [], _ :: _ => true
  | _ :: _, [] => false
  | a :: as, b :: bs =>
    if a.toNat < b.toNat then true
    else if a.toNat = b.toNat then pyStrLtChars as bs
    else false

/-- Python string `<` lifted to `String`. -/
def pyStrLt (a b : String) : Bool := pyStrLtChars a.data b.data

/-- Icon selection of the position branch: start from the gain icon and
switch to the lose icon when the sent position is truthy and compares
lexicographically below the current one (the source compares the two
formatted strings with Python `<`). -/
def positionIcon (sentPos : Option String) (curPos : String) : String :=
  if truthy sentPos && pyStrLt (optText sentPos) curPos then Icons.lose_position
  else Icons.gain_position

/-- The position branch of `process_data`. -/
def positionFrames (opts : Options) (sent da : Data) (fl : Bool) : List Frame :=
  if truthy da.position && !fl && decide (sent.position ≠ da.position) &&
      opts.enable_position then
    [⟨positionIcon sent.position (optText da.position), optText da.position⟩]
  else []

/-- The laps branch of `process_data`. -/
def lapsFrames (opts : Options) (sent da : Data) (fl : Bool) : List Frame :=
  if truthy da.laps && !fl && decide (sent.laps ≠ da.laps) && opts.enable_laps then
    [⟨Icons.laps, optText da.laps⟩]
  else []

/-- The frame-building part of `process_data`: returns the `frames`
list, the final value of the local `flag` variable, and the updated
`start_hidden_shown` guard.  When `enable_flags` is off the whole flag
scan (including the start-hidden branch) is skipped. -/
def buildFrames (opts : Options) (sent da : Data) (shown : Bool) :
    List Frame × Bool × Bool :=
  if opts.enable_flags then
    let sh := startHiddenScan da.flags shown
    let fl := flagActive da.flags
    (sh.1 ++ flagScanFrames da.flags ++ bestLapFrames opts sent da fl ++
       positionFrames opts sent da fl ++ lapsFrames opts sent da fl, fl, sh.2)
  else
    (bestLapFrames opts sent da false ++ positionFrames opts sent da false ++
       lapsFrames opts sent da false, false, shown)

/-- The notification `process_data` builds when `frames` is non-empty:
priority `critical`, `cycles` 0 when a flag is active and 1 otherwise. -/
def builtNotification (opts : Options) (sent da : Data) (shown : Bool) :
    Option Notification :=
  let b := buildFrames opts sent da shown
  if b.1.length > 0 then
    some (if b.2.1 then ⟨"critical", "none", ⟨0, b.1⟩⟩
          else ⟨"critical", "none", ⟨1, b.1⟩⟩)
  else none

/-- `send_notification`: the payload is handed to the transport only when
it differs from `previous_data_sent`, and `previous_data_sent` is updated
only when the transport response carries a `success` key.  Returns
(transport send call made, updated `previous_data_sent`). -/
def send_notification (prev : Option Notification) (n : Notification)
    (res : SendRes) : Bool × Option Notification :=
  if some n ≠ prev then
    match res with
    | SendRes.success _ => (true, some n)
    | SendRes.noSuccess => (true, prev)
    | SendRes.noResponse => (true, prev)
  else (false, prev)

/-- Python `{:,}` formatting helper: walking the reversed digit list,
emit a comma after every third digit that has more digits following. -/
def commaGroupRev : List Char → Nat → List Char
  | [], _ => []
  | c :: cs, i =>
    c :: (if (i + 1) % 3 == 0 && !cs.isEmpty then [','] else []) ++
      commaGroupRev cs (i + 1)

/-- Python `f"{n:,}"` for a natural number. -/
def formatThousands (n : Nat) : String :=
  String.mk ((commaGroupRev (toString n).data.reverse 0).reverse)

/-- Icon chosen by the license elif-chain of `send_ratings`. -/
def licenseIcon (letter : String) : String :=
  if letter = "R" then Icons.license_letter_r
  else if letter = "D" then Icons.license_letter_d
  else if letter = "C" then Icons.license_letter_c
  else if letter = "B" then Icons.license_letter_b
  else if letter = "A" then Icons.license_letter_a
  else if letter = "P" then Icons.license_letter_p
  else Icons.ir

/-- Frames built by `send_ratings`. -/
def send_ratings_frames (opts : Options) (driver : Driver) : List Frame :=
  (if opts.enable_irating then [⟨Icons.ir, formatThousands driver.irating⟩] else []) ++
  (if opts.enable_license then
    [⟨licenseIcon driver.license_letter, driver.safety_rating⟩] else [])

/-- `send_ratings`: builds the ratings frames and, when non-empty, sends
an `info` notification with `cycles` 0 for the ratings default display
and 2 otherwise.  Returns (the Python return value, transport sends made,
updated `previous_data_sent`). -/
def send_ratings (opts : Options) (driver : Driver)
    (prev : Option Notification) (res : SendRes) :
    Bool × List Notification × Option Notification :=
  let frames := send_ratings_frames opts driver
  if frames.length > 0 then
    let cycles := if opts.default_display = "ratings" then 0 else 2
    let n : Notification := ⟨"info", "none", ⟨cycles, frames⟩⟩
    let r := send_notification prev n res
    (true, if r.1 then [n] else [], r.2)
  else (false, [], prev)

/-- `send_default_display`: the elif-chain over the selected default
display.  The dismissal fallback of the ratings branch only talks to the
transport queue, so it contributes no send. -/
def send_default_display (opts : Options) (driver : Driver)
    (st : WorkerState) (da : Data) (res : SendRes) :
    List Notification × WorkerState :=
  if opts.default_display = "ratings" then
    let r := send_ratings opts driver st.previous_data_sent res
    (r.2.1, { st with previous_data_sent := r.2.2 })
  else if opts.default_display = "position" then
    let n : Notification := ⟨"info", "none", ⟨0, [⟨Icons.position, optText da.position⟩]⟩⟩
    let r := send_notification st.previous_data_sent n res
    (if r.1 then [n] else [], { st with previous_data_sent := r.2 })
  else if opts.default_display = "laps" then
    let n : Notification := ⟨"info", "none", ⟨0, [⟨Icons.laps, optText da.laps⟩]⟩⟩
    let r := send_notification st.previous_data_sent n res
    (if r.1 then [n] else [], { st with previous_data_sent := r.2 })
  else if opts.default_display = "bestlaps" then
    let n : Notification := ⟨"info", "none", ⟨0, [⟨Icons.purple, optText da.best_laptime⟩]⟩⟩
    let r := send_notification st.previous_data_sent n res
    (if r.1 then [n] else [], { st with previous_data_sent := r.2 })
  else ([], st)

/-- One `process_data` cycle: build the frames; when non-empty, send the
built notification and unconditionally copy `data` into `sent_data`
(`copy_data` runs whether or not the transport send succeeded); when
empty, run `send_default_display`.  Returns the payloads for which a
transport send call was made this cycle, and the updated state. -/
def process_data (opts : Options) (driver : Driver) (st : WorkerState)
    (da : Data) (res : SendRes) : List Notification × WorkerState :=
  let b := buildFrames opts st.sent_data da st.start_hidden_shown
  let st1 := { st with start_hidden_shown := b.2.2 }
  match builtNotification opts st.sent_data da st.start_hidden_shown with
  | some n =>
    let r := send_notification st1.previous_data_sent n res
    (if r.1 then [n] else [],
     { st1 with previous_data_sent := r.2, sent_data := da })
  | none => send_default_display opts driver st1 da res

/-- Python `str.split(' ')` on a character list: split at every single
space, keeping empty chunks. -/
def splitOnSpace : List Char → List String
  | [] => [""]
  | c :: rest =>
    let r := splitOnSpace rest
    if c = ' ' then "" :: r
    else
      match r with
      | [] => [String.mk [c]]
      | s :: ss => String.mk (c :: s.data) :: ss

/-- Driver population loop of `connected`: every roster entry whose
`CarIdx` matches `DriverCarIdx` overwrites the driver fields; a
`LicString` that does not split into exactly two words raises in the
source, modelled as `none`. -/
def populate_driver (roster : List RosterEntry) (driverCarIdx : Int)
    (d0 : Driver) : Option Driver :=
  roster.foldlM (fun d e =>
    if e.CarIdx = driverCarIdx then
      match splitOnSpace e.LicString.data with
      | [letter, sr] =>
        some { caridx := e.CarIdx, name := e.UserName, irating := e.IRating,
               license_string := e.LicString, license_letter := letter,
               safety_rating := sr }
      | _ => none
    else some d) d0

/-- The `connected` handler: populate the driver from the roster, dismiss
queued notifications (queue traffic only, no send), eagerly send the
ratings notification, then set `ir_connected` and clear the
start-hidden guard.  `sent_data` is not touched and `previous_data_sent`
changes only through the ratings send. -/
def connectedStep (opts : Options) (roster : List RosterEntry)
    (driverCarIdx : Int) (d0 : Driver) (st : WorkerState) (res : SendRes) :
    Option (Driver × List Notification × WorkerState) :=
  match populate_driver roster driverCarIdx d0 with
  | none => none
  | some dr =>
    let r := send_ratings opts dr st.previous_data_sent res
    some (dr, r.2.1,
      { st with previous_data_sent := r.2.2, ir_connected := true,
                start_hidden_shown := false })

/-- The disconnect branch of `run`: only `ir_connected` is cleared. -/
def disconnectedStep (st : WorkerState) : WorkerState :=
  { st with ir_connected := false }

/-- Harness for multi-cycle properties: run `process_data` over a list of
polled `Data` snapshots with a fixed transport outcome, collecting every
payload for which a transport send call was made. -/
def runCycles (opts : Options) (driver : Driver) (st : WorkerState)
    (das : List Data) (res : SendRes) : List Notification × WorkerState :=
  match das with
  | [] => ([], st)
  | da :: rest =>
    let r := process_data opts driver st da res
    let r2 := runCycles opts driver r.2 rest res
    (r.1 ++ r2.1, r2.2)

/-- Observer for the start-hidden claims: how many of the given payloads
contain the start-hidden frame. -/
def countStartSends (ns : List Notification) : Nat :=
  (ns.filter (fun n => decide (startFrame ∈ n.model.frames))).length

/-- Position field assembly in `data_collection`: a positive
`PlayerCarClassPosition` renders as rank over roster size, otherwise the
placeholder roster size over roster size. -/
def position_field (p : Int) (n : Nat) : String :=
  if p > 0 then s!"{p} / {n}" else s!"{n} / {n}"

/-- Laps field assembly in `data_collection`: only for a positive
`LapCompleted`; a total strictly above 32000 renders as the infinite
marker. -/
def laps_field (completed remaining : Int) : Option String :=
  if completed > 0 then
    some (if completed + remaining > 32000 then s!"{completed} / ∞"
          else s!"{completed} / {completed + remaining}")
  else none

/-- Integer part of Python `divmod(t, 60)`. -/
def minutesPart (t : ℚ) : ℤ := ⌊t / 60⌋

/-- Remainder of Python `divmod(t, 60)`. -/
def secPart (t : ℚ) : ℚ := t - 60 * minutesPart t

/-- Round to the nearest integer, ties to even, as printf-style float
formatting does on the exact value. -/
def roundHalfEven (q : ℚ) : ℤ :=
  let f := ⌊q⌋
  let r := q - f
  if r < 1/2 then f
  else if r > 1/2 then f + 1
  else if f % 2 = 0 then f else f + 1

/-- The seconds remainder scaled to thousandths and rounded, i.e. the
number printed by `f"{seconds:.3f}"` times 1000. -/
def secRound (t : ℚ) : ℤ := roundHalfEven (secPart t * 1000)

/-- Zero-pad a sub-unit thousandths value to exactly three digits. -/
def pad3 (m : Nat) : String :=
  if m < 10 then "00" ++ toString m
  else if m < 100 then "0" ++ toString m
  else toString m

/-- Python `f"{s:.3f}"` for a non-negative rational. -/
def fmt3 (s : ℚ) : String :=
  let n := (roundHalfEven (s * 1000)).toNat
  toString (n / 1000) ++ "." ++ pad3 (n % 1000)

/-- Best lap time formatting of `data_collection`: `divmod` by 60, then
`f"{minutes:.0f}:0{seconds:.3f}"` when the unrounded seconds are below
10 and `f"{minutes:.0f}:{seconds:.3f}"` otherwise. -/
def format_best_laptime (t : ℚ) : String :=
  let m := minutesPart t
  let s := secPart t
  if s < 10 then toString m.toNat ++ ":0" ++ fmt3 s
  else toString m.toNat ++ ":" ++ fmt3 s

/-- The integer-seconds portion of the rendered lap time, pad included:
what stands between the colon and the decimal point. -/
def secondsIntString (t : ℚ) : String :=
  (if secPart t < 10 then "0" else "") ++ toString ((secRound t).toNat / 1000)

/-- Concrete driver used by the closed scenarios. -/
def cexDriver : Driver :=
  { irating := 1350, license_letter := "A", safety_rating := "3.99" }

/-- Roster with a single entry matching car index 0. -/
def cexRoster : List RosterEntry := [⟨0, "Test Driver", 1350, "A 3.99"⟩]

/-- Snapshot with only the unscanned `servicible` bit set and a fresh
best lap. -/
def c1Data : Data := { best_laptime := some "1:00.000", flags := Flags.servicible }

/-- Snapshot with only the green flag bit set. -/
def c1wData : Data := { flags := Flags.green }

/-- Sent state of the end-to-end scenario of the spec. -/
def c3Sent : Data := { position := some "5 / 20" }

/-- Snapshot of the end-to-end scenario of the spec. -/
def c3Da : Data := { position := some "3 / 20", best_laptime := some "1:10.500" }

/-- Snapshot with a position and nothing else, polled twice in a row. -/
def c2PosData : Data := { position := some "3 / 20" }

/-- First cycle on `c2PosData` from a fresh state. -/
def c2R1 : List Notification × WorkerState :=
  process_data defaultOptions cexDriver {} c2PosData (SendRes.success "1")

/-- Second cycle on the identical snapshot `c2PosData`. -/
def c2R2 : List Notification × WorkerState :=
  process_data defaultOptions cexDriver c2R1.2 c2PosData (SendRes.success "2")

/-- The event notification the first `c2PosData` cycle transmits. -/
def c2N1 : Notification :=
  ⟨"critical", "none", ⟨1, [⟨Icons.gain_position, "3 / 20"⟩]⟩⟩

/-- Result of the first `connected` transition for the reconnect
scenario. -/
def afterConn1 : Driver × List Notification × WorkerState :=
  (connectedStep defaultOptions cexRoster 0 {} {} (SendRes.success "1")).getD
    ({}, [], {})

/-- Snapshot polled in both Connected phases of the reconnect scenario. -/
def c4Data : Data := { best_laptime := some "1:00.000" }

/-- First Connected phase cycle of the reconnect scenario. -/
def c4R1 : List Notification × WorkerState :=
  process_data defaultOptions afterConn1.1 afterConn1.2.2 c4Data (SendRes.success "2")

/-- State after the disconnect of the reconnect scenario. -/
def c4St2 : WorkerState := disconnectedStep c4R1.2

/-- Result of the second `connected` transition of the reconnect
scenario. -/
def afterConn2 : Driver × List Notification × WorkerState :=
  (connectedStep defaultOptions cexRoster 0 afterConn1.1 c4St2
    (SendRes.success "3")).getD ({}, [], {})

/-- Second Connected phase cycle of the reconnect scenario, on the same
snapshot as the first phase. -/
def c4R2 : List Notification × WorkerState :=
  process_data defaultOptions afterConn2.1 afterConn2.2.2 c4Data (SendRes.success "4")

/-- Snapshot with a fresh best lap for the failed-send scenario. -/
def c5Data : Data := { best_laptime := some "1:00.000" }

/-- The payload the failed-send cycle hands to the transport. -/
def c5N1 : Notification := ⟨"critical", "none", ⟨1, [⟨Icons.purple, "1:00.000"⟩]⟩⟩

/-- Cycle on `c5Data` whose transport send gets no response. -/
def c5R1 : List Notification × WorkerState :=
  process_data defaultOptions cexDriver {} c5Data SendRes.noResponse

/-- Follow-up cycle on the identical snapshot with a working transport. -/
def c5R2 : List Notification × WorkerState :=
  process_data defaultOptions cexDriver c5R1.2 c5Data (SendRes.success "1")

/-- Snapshot with only the start-hidden bit set. -/
def c6d : Data := { flags := Flags.start_hidden }

/-- Membership in a conditional singleton list forces the element and the
condition. -/
theorem mem_ite_singleton {α : Type} {c : Prop} [Decidable c] {x m : α}
    (h : m ∈ if c then [x] else []) : m = x ∧ c := by
  by_cases hc : c
  · rw [if_pos hc] at h
    exact ⟨List.mem_singleton.mp h, hc⟩
  · rw [if_neg hc] at h
    cases h

/-- C10: whenever `PlayerCarClassPosition` is not positive, the position
field is still populated, with the placeholder `"N / N"` built from the
roster size N. -/
theorem position_placeholder (p : Int) (n : Nat) (h : p ≤ 0) :
    position_field p n = s!"{n} / {n}" := by
  unfold position_field
  rw [if_neg (by omega)]

/-- Witness: `PlayerCarClassPosition = 0` with a 20-car roster renders as
the placeholder `"20 / 20"`. -/
theorem position_placeholder_witness : position_field 0 20 = "20 / 20" := by
  rw [position_placeholder 0 20 (by decide)]
  decide

/-- C8 counterexample: at `LapCompleted = 1` and
`SessionLapsRemainEx = 31999` the total is exactly 32000, which the claim
says is at the sentinel threshold and must render as the infinite marker;
the code's strict `> 32000` comparison renders the literal total
instead. -/
theorem laps_sentinel_cex :
    laps_field 1 31999 = some "1 / 32000" ∧ (1 : ℤ) + 31999 = 32000 := by
  constructor
  · decide
  · decide

/-- C8 (amended): for a positive lap count the laps field renders the
infinite marker exactly when the total is strictly above 32000, and the
literal total otherwise. -/
theorem laps_sentinel (completed remaining : Int) (h : 0 < completed) :
    (32000 < completed + remaining →
      laps_field completed remaining = some s!"{completed} / ∞") ∧
    (completed + remaining ≤ 32000 →
      laps_field completed remaining = some s!"{completed} / {completed + remaining}") := by
  unfold laps_field
  rw [if_pos h]
  constructor
  · intro h2
    rw [if_pos h2]
  · intro h2
    rw [if_neg (by omega)]

/-- Witness: the claim's own example, `SessionLapsRemainEx = 32767` with
one lap completed, renders as the infinite marker. -/
theorem laps_sentinel_witness : laps_field 1 32767 = some "1 / ∞" := by
  rw [(laps_sentinel 1 32767 (by decide)).1 (by decide)]
  decide

/-- C9: evaluating the position branch at the failing input.  Dropping
from rank 9 to rank 10 is a lost position, but the source compares the
formatted strings lexicographically (`"9 / 20" < "10 / 20"` is false
because the character `9` is above `1`), so the frame carries the
gain-position icon. -/
theorem position_direction_bug :
    positionFrames defaultOptions { position := some "9 / 20" }
        { position := some "10 / 20" } false =
      [⟨Icons.gain_position, "10 / 20"⟩] ∧
    Icons.gain_position ≠ Icons.lose_position ∧ (9 : ℕ) < 10 := by
  constructor
  · decide
  · constructor
    · decide
    · decide

/-- A frame emitted by the start-hidden branch is the start frame. -/
theorem startHiddenScan_mem {flags : Nat} {shown : Bool} {fr : Frame}
    (h : fr ∈ (startHiddenScan flags shown).1) : fr = startFrame := by
  unfold startHiddenScan at h
  split at h
  · exact List.mem_singleton.mp h
  · cases h

/-- Every frame of the flag scan is one of the table frames. -/
theorem flagScanFrames_mem {flags : Nat} {fr : Frame}
    (h : fr ∈ flagScanFrames flags) : fr ∈ flagTable.map (fun e => e.2) := by
  unfold flagScanFrames at h
  rcases List.mem_map.mp h with ⟨e, he, rfl⟩
  exact List.mem_map.mpr ⟨e, (List.mem_filter.mp he).1, rfl⟩

/-- No frame of the flag table uses a best-lap, position or laps icon,
and none carries the start-hidden text. -/
theorem flagTable_frame_icons :
    ∀ fr ∈ flagTable.map (fun e => e.2),
      fr.icon ≠ Icons.purple ∧ fr.icon ≠ Icons.gain_position ∧
      fr.icon ≠ Icons.lose_position ∧ fr.icon ≠ Icons.laps ∧
      fr ≠ startFrame := by decide

/-- An active flag guarantees a non-empty flag scan. -/
theorem flagScanFrames_ne_nil {flags : Nat} (h : flagActive flags = true) :
    flagScanFrames flags ≠ [] := by
  unfold flagActive at h
  rcases List.any_eq_true.mp h with ⟨e, he, hpe⟩
  intro hnil
  have hmem : e.2 ∈ flagScanFrames flags := by
    unfold flagScanFrames
    exact List.mem_map.mpr ⟨e, List.mem_filter.mpr ⟨he, hpe⟩, rfl⟩
  rw [hnil] at hmem
  cases hmem

/-- No active flag means an empty flag scan. -/
theorem flagScanFrames_eq_nil {flags : Nat} (h : flagActive flags = false) :
    flagScanFrames flags = [] := by
  unfold flagActive at h
  unfold flagScanFrames
  rw [List.filter_eq_nil_iff.mpr ?_]
  · rfl
  · intro e he
    exact (List.any_eq_false.mp h) e he

/-- With the default options, `buildFrames` decomposes into the
start-hidden part, the flag scan, and the three diff branches. -/
theorem buildFrames_default (sent da : Data) (shown : Bool) :
    buildFrames defaultOptions sent da shown =
      ((startHiddenScan da.flags shown).1 ++ flagScanFrames da.flags ++
         bestLapFrames defaultOptions sent da (flagActive da.flags) ++
         positionFrames defaultOptions sent da (flagActive da.flags) ++
         lapsFrames defaultOptions sent da (flagActive da.flags),
       flagActive da.flags, (startHiddenScan da.flags shown).2) := rfl

/-- An active flag silences the best-lap branch. -/
theorem bestLapFrames_flag (opts : Options) (sent da : Data) :
    bestLapFrames opts sent da true = [] := by
  unfold bestLapFrames
  simp

/-- An active flag silences the position branch. -/
theorem positionFrames_flag (opts : Options) (sent da : Data) :
    positionFrames opts sent da true = [] := by
  unfold positionFrames
  simp

/-- An active flag silences the laps branch. -/
theorem lapsFrames_flag (opts : Options) (sent da : Data) :
    lapsFrames opts sent da true = [] := by
  unfold lapsFrames
  simp

/-- C1 (amended): whenever at least one of the twenty scanned
non-start-hidden flag bits is set, the built notification is the
`critical`/`cycles = 0` payload holding exactly the frames of the flag
scan (with a start-hidden frame only when that bit is set and the
per-connection guard has not fired), and none of those frames is a
best-lap, position or laps frame. -/
theorem flag_priority (sent da : Data) (shown : Bool)
    (hfl : flagActive da.flags = true) :
    builtNotification defaultOptions sent da shown =
      some ⟨"critical", "none",
        ⟨0, (startHiddenScan da.flags shown).1 ++ flagScanFrames da.flags⟩⟩ ∧
    ∀ fr ∈ (startHiddenScan da.flags shown).1 ++ flagScanFrames da.flags,
      fr.icon ≠ Icons.purple ∧ fr.icon ≠ Icons.gain_position ∧
      fr.icon ≠ Icons.lose_position ∧ fr.icon ≠ Icons.laps := by
  have hframes : buildFrames defaultOptions sent da shown =
      ((startHiddenScan da.flags shown).1 ++ flagScanFrames da.flags, true,
       (startHiddenScan da.flags shown).2) := by
    rw [buildFrames_default, hfl, bestLapFrames_flag, positionFrames_flag,
      lapsFrames_flag]
    simp
  constructor
  · unfold builtNotification
    rw [hframes]
    have hlen : 0 < ((startHiddenScan da.flags shown).1 ++
        flagScanFrames da.flags).length := by
      rw [List.length_append]
      have := List.length_pos.mpr (flagScanFrames_ne_nil hfl)
      omega
    simp only [gt_iff_lt, hlen, if_pos, if_true]
  · intro fr hfr
    rcases List.mem_append.mp hfr with h | h
    · rw [startHiddenScan_mem h]
      refine ⟨by decide, by decide, by decide, by decide⟩
    · have hp := flagTable_frame_icons fr (flagScanFrames_mem h)
      exact ⟨hp.1, hp.2.1, hp.2.2.1, hp.2.2.2.1⟩

/-- Witness: the green flag bit alone produces the critical flag
notification with exactly the scanned green frame. -/
theorem flag_priority_witness :
    builtNotification defaultOptions {} c1wData false =
      some ⟨"critical", "none",
        ⟨0, (startHiddenScan c1wData.flags false).1 ++
          flagScanFrames c1wData.flags⟩⟩ ∧
    ∀ fr ∈ (startHiddenScan c1wData.flags false).1 ++
        flagScanFrames c1wData.flags,
      fr.icon ≠ Icons.purple ∧ fr.icon ≠ Icons.gain_position ∧
      fr.icon ≠ Icons.lose_position ∧ fr.icon ≠ Icons.laps :=
  flag_priority {} c1wData false (by decide)

/-- C1 counterexample: the bitmask `0x40000` (the telemetry bitfield's
`servicible` bit) sets a bit other than start-hidden, yet none of the
twenty scanned flag bits, so the claim's hypothesis holds while the built
notification still carries a best-lap frame. -/
theorem flag_priority_cex :
    hasFlag c1Data.flags Flags.start_hidden = false ∧ c1Data.flags ≠ 0 ∧
    builtNotification defaultOptions {} c1Data false =
      some ⟨"critical", "none", ⟨1, [⟨Icons.purple, "1:00.000"⟩]⟩⟩ := by decide

/-- C3 (amended): when no scanned flag bit is set and the frame list is
non-empty, the built notification has priority `critical` (not `info` or
`warning`) with `cycles = 1`, one frame per fired non-flag event; the
spec's scenario (position 5-to-3 plus a first best lap) yields the
best-lap frame and the position-gained frame. -/
theorem nonflag_notification :
    (∀ (sent da : Data) (shown : Bool) (n : Notification),
      flagActive da.flags = false →
      builtNotification defaultOptions sent da shown = some n →
      n.priority = "critical" ∧ n.icon_type = "none" ∧ n.model.cycles = 1 ∧
      n.model.frames = (startHiddenScan da.flags shown).1 ++
        (bestLapFrames defaultOptions sent da false ++
          positionFrames defaultOptions sent da false ++
          lapsFrames defaultOptions sent da false)) ∧
    builtNotification defaultOptions c3Sent c3Da false =
      some ⟨"critical", "none",
        ⟨1, [⟨Icons.purple, "1:10.500"⟩, ⟨Icons.gain_position, "3 / 20"⟩]⟩⟩ := by
  constructor
  · intro sent da shown n hfl hn
    unfold builtNotification at hn
    rw [buildFrames_default, hfl, flagScanFrames_eq_nil hfl] at hn
    simp only [List.append_nil, List.append_assoc] at hn
    split at hn
    · rw [Option.some_inj] at hn
      subst hn
      simp [if_neg (Bool.false_ne_true)]
    · cases hn
  · decide

/-- Witness: the spec scenario instantiates the amended statement. -/
theorem nonflag_notification_witness :
    ("critical" : String) = "critical" ∧ ("none" : String) = "none" ∧
    (1 : Nat) = 1 ∧
    ([⟨Icons.purple, "1:10.500"⟩, ⟨Icons.gain_position, "3 / 20"⟩] : List Frame) =
      (startHiddenScan c3Da.flags false).1 ++
        (bestLapFrames defaultOptions c3Sent c3Da false ++
          positionFrames defaultOptions c3Sent c3Da false ++
          lapsFrames defaultOptions c3Sent c3Da false) :=
  nonflag_notification.1 c3Sent c3Da false
    ⟨"critical", "none",
      ⟨1, [⟨Icons.purple, "1:10.500"⟩, ⟨Icons.gain_position, "3 / 20"⟩]⟩⟩
    (by decide) (by decide)

/-- C3 counterexample: the spec scenario's notification has priority
`critical`, not `info` or `warning` as the claim requires. -/
theorem nonflag_priority_cex :
    builtNotification defaultOptions c3Sent c3Da false =
      some ⟨"critical", "none",
        ⟨1, [⟨Icons.purple, "1:10.500"⟩, ⟨Icons.gain_position, "3 / 20"⟩]⟩⟩ ∧
    ("critical" : String) ≠ "info" ∧ ("critical" : String) ≠ "warning" := by decide

/-- A transport send call implies the payload differed from
`previous_data_sent`. -/
theorem send_notification_fst {prev : Option Notification} {n : Notification}
    {res : SendRes} (h : (send_notification prev n res).1 = true) :
    some n ≠ prev := by
  unfold send_notification at h
  split at h
  · assumption
  · simp at h

/-- C2 (amended): `send_notification` never hands the transport a payload
equal to `previous_data_sent` — in particular a candidate equal to the
last successfully transmitted payload is dropped without a send call —
and every payload a `process_data` cycle sends differs from the
`previous_data_sent` it started with.  (The original claim's stronger
consequent, zero send calls in the second of two identical cycles, fails:
see the counterexample.) -/
theorem send_dedupe :
    (∀ (prev : Option Notification) (n : Notification) (res : SendRes),
      prev = some n → send_notification prev n res = (false, prev)) ∧
    (∀ (opts : Options) (driver : Driver) (st : WorkerState) (da : Data)
        (res : SendRes) (n : Notification),
      n ∈ (process_data opts driver st da res).1 →
      some n ≠ st.previous_data_sent) := by
  constructor
  · intro prev n res h
    subst h
    unfold send_notification
    rw [if_neg (by simp)]
  · intro opts driver st da res n hn
    simp only [process_data] at hn
    split at hn
    · rcases mem_ite_singleton hn with ⟨rfl, hc⟩
      exact send_notification_fst hc
    · simp only [send_default_display] at hn
      split at hn
      · simp only [send_ratings] at hn
        split at hn
        · rcases mem_ite_singleton hn with ⟨rfl, hc⟩
          exact send_notification_fst hc
        · simp at hn
      · split at hn
        · rcases mem_ite_singleton hn with ⟨rfl, hc⟩
          exact send_notification_fst hc
        · split at hn
          · rcases mem_ite_singleton hn with ⟨rfl, hc⟩
            exact send_notification_fst hc
          · split at hn
            · rcases mem_ite_singleton hn with ⟨rfl, hc⟩
              exact send_notification_fst hc
            · simp at hn

/-- Witness: a candidate equal to the previously transmitted payload is
dropped, and the first concrete cycle's transmitted payload differs from
the fresh state's `previous_data_sent`. -/
theorem send_dedupe_witness :
    send_notification (some c2N1) c2N1 (SendRes.success "w") = (false, some c2N1) ∧
    some c2N1 ≠ ({} : WorkerState).previous_data_sent :=
  ⟨send_dedupe.1 (some c2N1) c2N1 (SendRes.success "w") rfl,
   send_dedupe.2 defaultOptions cexDriver {} c2PosData (SendRes.success "1") c2N1
     (by decide)⟩

/-- C2 counterexample: two consecutive cycles on the identical snapshot
`c2PosData` (flags 0, so no newly set flag bits): the first cycle
transmits the position notification, and the second cycle still makes a
transport send call — the ratings default-display payload. -/
theorem idempotent_suppression_cex :
    c2PosData.flags = 0 ∧ c2R1.1 = [c2N1] ∧ c2R2.1 ≠ [] ∧
    c2R2.1.map Notification.priority = ["info"] := by decide

/-- C5 (amended): a failed transport send (no response, or a response
without a `success` key) leaves `previous_data_sent` — the duplicate
suppression state — unchanged, but the diffing state `sent_data` is
overwritten with the polled data whenever any frames were built, whether
or not the send succeeded; so non-flag payloads are not retried on the
next cycle. -/
theorem failed_send :
    (∀ (prev : Option Notification) (n : Notification),
      (send_notification prev n SendRes.noResponse).2 = prev ∧
      (send_notification prev n SendRes.noSuccess).2 = prev) ∧
    (∀ (opts : Options) (driver : Driver) (st : WorkerState) (da : Data)
        (res : SendRes) (n : Notification),
      builtNotification opts st.sent_data da st.start_hidden_shown = some n →
      (process_data opts driver st da res).2.sent_data = da) := by
  constructor
  · intro prev n
    constructor <;> (unfold send_notification; split <;> rfl)
  · intro opts driver st da res n hn
    simp only [process_data]
    rw [hn]

/-- Witness: a no-response send keeps `previous_data_sent`, and the
concrete failed-send cycle still overwrites `sent_data`. -/
theorem failed_send_witness :
    (send_notification (some c5N1) c5N1 SendRes.noResponse).2 = some c5N1 ∧
    c5R1.2.sent_data = c5Data :=
  ⟨(failed_send.1 (some c5N1) c5N1).1,
   failed_send.2 defaultOptions cexDriver {} c5Data SendRes.noResponse c5N1
     (by decide)⟩

/-- C5 counterexample: the cycle on `c5Data` whose send fails leaves
`previous_data_sent` untouched but overwrites `sent_data`; the next cycle
on the identical snapshot therefore never re-transmits the failed payload
`c5N1`. -/
theorem failed_send_cex :
    c5R1.1 = [c5N1] ∧ c5R1.2.previous_data_sent = none ∧
    c5R1.2.sent_data = c5Data ∧ c5N1 ∉ c5R2.1 := by decide

/-- C4 (amended): on a transition to Connected the driver is repopulated
from the roster, the start-hidden guard is reset, `ir_connected` is set
and one eager ratings notification send is attempted — but `sent_data`
is left exactly as it was, and `previous_data_sent` is only updated
through that ratings send, never cleared. -/
theorem connected_partial_reset :
    ∀ (opts : Options) (roster : List RosterEntry) (idx : Int) (d0 : Driver)
      (st : WorkerState) (res : SendRes)
      (out : Driver × List Notification × WorkerState),
      connectedStep opts roster idx d0 st res = some out →
      populate_driver roster idx d0 = some out.1 ∧
      out.2.1 = (send_ratings opts out.1 st.previous_data_sent res).2.1 ∧
      out.2.2.sent_data = st.sent_data ∧
      out.2.2.start_hidden_shown = false ∧
      out.2.2.ir_connected = true ∧
      out.2.2.previous_data_sent =
        (send_ratings opts out.1 st.previous_data_sent res).2.2 := by
  intro opts roster idx d0 st res out h
  unfold connectedStep at h
  split at h
  · cases h
  · rw [Option.some_inj] at h
    subst h
    exact ⟨by assumption, rfl, rfl, rfl, rfl, rfl⟩

/-- Witness: the concrete first connect populates the driver, keeps
`sent_data`, resets the guard and performs the eager ratings send. -/
theorem connected_partial_reset_witness :
    populate_driver cexRoster 0 {} = some afterConn1.1 ∧
    afterConn1.2.1 =
      (send_ratings defaultOptions afterConn1.1
        ({} : WorkerState).previous_data_sent (SendRes.success "1")).2.1 ∧
    afterConn1.2.2.sent_data = ({} : WorkerState).sent_data ∧
    afterConn1.2.2.start_hidden_shown = false ∧
    afterConn1.2.2.ir_connected = true ∧
    afterConn1.2.2.previous_data_sent =
      (send_ratings defaultOptions afterConn1.1
        ({} : WorkerState).previous_data_sent (SendRes.success "1")).2.2 :=
  connected_partial_reset defaultOptions cexRoster 0 {} {} (SendRes.success "1")
    afterConn1 (by decide)

/-- C4 counterexample: across Connected, cycle, Disconnected, Connected,
the second connect leaves `sent_data` holding the phase-1 snapshot
instead of clearing it; the phase-1 cycle transmitted the best-lap
notification, and the identical phase-2 cycle transmits nothing — the
event is suppressed by state retained from the first Connected phase. -/
theorem connected_reset_cex :
    afterConn2.2.2.sent_data = c4Data ∧ c4Data ≠ ({} : Data) ∧
    c4R1.1 = [⟨"critical", "none", ⟨1, [⟨Icons.purple, "1:00.000"⟩]⟩⟩] ∧
    c4R2.1 = [] := by decide

/-- Once the guard is latched the start-hidden branch is silent and the
guard stays latched. -/
theorem startHiddenScan_shown (flags : Nat) :
    startHiddenScan flags true = ([], true) := by
  unfold startHiddenScan
  rw [if_neg (by simp)]

/-- The license elif-chain never yields the start-hidden icon. -/
theorem licenseIcon_ne_start (letter : String) :
    licenseIcon letter ≠ Icons.start_hidden := by
  unfold licenseIcon
  repeat' split
  all_goals decide

/-- The position branch never yields the start-hidden icon. -/
theorem positionIcon_ne_start (sp : Option String) (cp : String) :
    positionIcon sp cp ≠ Icons.start_hidden := by
  unfold positionIcon
  split
  · decide
  · decide

/-- A frame whose icon is not the start-hidden icon is not the start
frame. -/
theorem frame_ne_start {fr : Frame} (h : fr.icon ≠ Icons.start_hidden) :
    fr ≠ startFrame :=
  fun heq => h (by rw [heq]; rfl)

/-- The start frame is not in a singleton whose icon differs. -/
theorem start_notMem_singleton {i t : String} (h : i ≠ Icons.start_hidden) :
    startFrame ∉ [(⟨i, t⟩ : Frame)] := by
  intro hm
  rw [List.mem_singleton] at hm
  exact h ((congrArg Frame.icon hm).symm)

/-- With the guard latched, no frame `buildFrames` produces is the start
frame, and the guard comes out latched. -/
theorem buildFrames_noStart (opts : Options) (sent da : Data) :
    (∀ fr ∈ (buildFrames opts sent da true).1, fr ≠ startFrame) ∧
    (buildFrames opts sent da true).2.2 = true := by
  unfold buildFrames
  split
  · rw [startHiddenScan_shown]
    constructor
    · intro fr hfr
      simp only [List.nil_append, List.mem_append] at hfr
      rcases hfr with ((h | h) | h) | h
      · exact (flagTable_frame_icons fr (flagScanFrames_mem h)).2.2.2.2
      · rcases mem_ite_singleton h with ⟨rfl, _⟩
        exact frame_ne_start (show Icons.purple ≠ Icons.start_hidden by decide)
      · rcases mem_ite_singleton h with ⟨rfl, _⟩
        exact frame_ne_start (positionIcon_ne_start _ _)
      · rcases mem_ite_singleton h with ⟨rfl, _⟩
        exact frame_ne_start (show Icons.laps ≠ Icons.start_hidden by decide)
    · rfl
  · constructor
    · intro fr hfr
      simp only [List.mem_append] at hfr
      rcases hfr with (h | h) | h
      · rcases mem_ite_singleton h with ⟨rfl, _⟩
        exact frame_ne_start (show Icons.purple ≠ Icons.start_hidden by decide)
      · rcases mem_ite_singleton h with ⟨rfl, _⟩
        exact frame_ne_start (positionIcon_ne_start _ _)
      · rcases mem_ite_singleton h with ⟨rfl, _⟩
        exact frame_ne_start (show Icons.laps ≠ Icons.start_hidden by decide)
    · rfl

/-- The ratings frames never contain the start frame. -/
theorem ratings_noStart (opts : Options) (driver : Driver) :
    startFrame ∉ send_ratings_frames opts driver := by
  intro hmem
  unfold send_ratings_frames at hmem
  rcases List.mem_append.mp hmem with h | h
  · rcases mem_ite_singleton h with ⟨heq, _⟩
    exact absurd ((congrArg Frame.icon heq).symm)
      (show Icons.ir ≠ Icons.start_hidden by decide)
  · rcases mem_ite_singleton h with ⟨heq, _⟩
    exact absurd ((congrArg Frame.icon heq).symm) (licenseIcon_ne_start _)

/-- Every payload a cycle sends carries either the built frame list, the
ratings frames, or one of the three default-display singleton frames. -/
theorem sends_frames (opts : Options) (driver : Driver) (st : WorkerState)
    (da : Data) (res : SendRes) :
    ∀ n ∈ (process_data opts driver st da res).1,
      n.model.frames = (buildFrames opts st.sent_data da st.start_hidden_shown).1 ∨
      n.model.frames = send_ratings_frames opts driver ∨
      n.model.frames = [⟨Icons.position, optText da.position⟩] ∨
      n.model.frames = [⟨Icons.laps, optText da.laps⟩] ∨
      n.model.frames = [⟨Icons.purple, optText da.best_laptime⟩] := by
  intro n hn
  simp only [process_data] at hn
  split at hn
  case h_1 nb heq =>
    rcases mem_ite_singleton hn with ⟨rfl, _⟩
    left
    simp only [builtNotification] at heq
    split at heq
    · rw [Option.some_inj] at heq
      subst heq
      split
      · rfl
      · rfl
    · cases heq
  case h_2 heq =>
    simp only [send_default_display] at hn
    split at hn
    · simp only [send_ratings] at hn
      split at hn
      · rcases mem_ite_singleton hn with ⟨rfl, _⟩
        right; left; rfl
      · simp at hn
    · split at hn
      · rcases mem_ite_singleton hn with ⟨rfl, _⟩
        right; right; left; rfl
      · split at hn
        · rcases mem_ite_singleton hn with ⟨rfl, _⟩
          right; right; right; left; rfl
        · split at hn
          · rcases mem_ite_singleton hn with ⟨rfl, _⟩
            right; right; right; right; rfl
          · simp at hn

/-- With the guard latched, no payload a cycle sends contains the start
frame. -/
theorem process_noStart (opts : Options) (driver : Driver) (st : WorkerState)
    (da : Data) (res : SendRes) (h : st.start_hidden_shown = true) :
    ∀ n ∈ (process_data opts driver st da res).1,
      startFrame ∉ n.model.frames := by
  intro n hn
  rcases sends_frames opts driver st da res n hn with h1 | h1 | h1 | h1 | h1 <;>
    rw [h1]
  · rw [h]
    intro hmem
    exact (buildFrames_noStart opts st.sent_data da).1 startFrame hmem rfl
  · exact ratings_noStart opts driver
  · exact start_notMem_singleton (by decide)
  · exact start_notMem_singleton (by decide)
  · exact start_notMem_singleton (by decide)

/-- With the guard latched, a cycle keeps it latched. -/
theorem process_shown (opts : Options) (driver : Driver) (st : WorkerState)
    (da : Data) (res : SendRes) (h : st.start_hidden_shown = true) :
    (process_data opts driver st da res).2.start_hidden_shown = true := by
  simp only [process_data, h]
  split
  · exact (buildFrames_noStart opts st.sent_data da).2
  · simp only [send_default_display]
    split
    · exact (buildFrames_noStart opts st.sent_data da).2
    · split
      · exact (buildFrames_noStart opts st.sent_data da).2
      · split
        · exact (buildFrames_noStart opts st.sent_data da).2
        · split
          · exact (buildFrames_noStart opts st.sent_data da).2
          · exact (buildFrames_noStart opts st.sent_data da).2

/-- Start-frame counting distributes over append. -/
theorem countStartSends_append (a b : List Notification) :
    countStartSends (a ++ b) = countStartSends a + countStartSends b := by
  unfold countStartSends
  rw [List.filter_append, List.length_append]

/-- A list of payloads none of which contains the start frame counts
zero. -/
theorem countStartSends_eq_zero {ns : List Notification}
    (h : ∀ n ∈ ns, startFrame ∉ n.model.frames) : countStartSends ns = 0 := by
  unfold countStartSends
  rw [List.length_eq_zero, List.filter_eq_nil_iff]
  intro n hn
  simp [h n hn]

/-- With the guard latched, a whole run sends no start frame and the
guard stays latched. -/
theorem runCycles_noStart (opts : Options) (driver : Driver)
    (st : WorkerState) (das : List Data) (res : SendRes)
    (h : st.start_hidden_shown = true) :
    countStartSends (runCycles opts driver st das res).1 = 0 ∧
    (runCycles opts driver st das res).2.start_hidden_shown = true := by
  induction das generalizing st with
  | nil => exact ⟨rfl, h⟩
  | cons da rest ih =>
    have h1 := process_noStart opts driver st da res h
    have h2 := process_shown opts driver st da res h
    have ih2 := ih (process_data opts driver st da res).2 h2
    constructor
    · simp only [runCycles]
      rw [countStartSends_append, countStartSends_eq_zero h1, ih2.1]
    · simp only [runCycles]
      exact ih2.2

/-- With a fresh guard, a cycle whose snapshot has exactly the
start-hidden bit set and whose last transmitted payload was not a
critical notification transmits exactly one payload containing the start
frame, and latches the guard. -/
theorem cycle_start_fires (driver : Driver) (st : WorkerState) (da : Data)
    (id : String)
    (hshown : st.start_hidden_shown = false)
    (hda : da.flags = Flags.start_hidden)
    (hprev : ∀ m, st.previous_data_sent = some m → m.priority ≠ "critical") :
    countStartSends
      (process_data defaultOptions driver st da (SendRes.success id)).1 = 1 ∧
    (process_data defaultOptions driver st da
      (SendRes.success id)).2.start_hidden_shown = true := by
  have hsh : startHiddenScan da.flags false = ([startFrame], true) := by
    rw [hda]; decide
  have hfl : flagActive da.flags = false := by
    rw [hda]; decide
  have hscan : flagScanFrames da.flags = [] := flagScanFrames_eq_nil hfl
  have hbf : buildFrames defaultOptions st.sent_data da false =
      (startFrame ::
        (bestLapFrames defaultOptions st.sent_data da false ++
          positionFrames defaultOptions st.sent_data da false ++
          lapsFrames defaultOptions st.sent_data da false), false, true) := by
    rw [buildFrames_default, hsh, hscan, hfl]
    simp
  have hbuilt : builtNotification defaultOptions st.sent_data da false =
      some ⟨"critical", "none",
        ⟨1, startFrame ::
          (bestLapFrames defaultOptions st.sent_data da false ++
            positionFrames defaultOptions st.sent_data da false ++
            lapsFrames defaultOptions st.sent_data da false)⟩⟩ := by
    unfold builtNotification
    rw [hbf]
    simp
  have hne : some (⟨"critical", "none",
      ⟨1, startFrame ::
        (bestLapFrames defaultOptions st.sent_data da false ++
          positionFrames defaultOptions st.sent_data da false ++
          lapsFrames defaultOptions st.sent_data da false)⟩⟩ : Notification) ≠
      st.previous_data_sent := by
    cases hp : st.previous_data_sent with
    | none => simp
    | some m =>
      intro heq
      rw [Option.some_inj] at heq
      exact hprev m hp (by rw [← heq])
  have hsend : send_notification st.previous_data_sent
      (⟨"critical", "none",
        ⟨1, startFrame ::
          (bestLapFrames defaultOptions st.sent_data da false ++
            positionFrames defaultOptions st.sent_data da false ++
            lapsFrames defaultOptions st.sent_data da false)⟩⟩ : Notification)
      (SendRes.success id) =
      (true, some ⟨"critical", "none",
        ⟨1, startFrame ::
          (bestLapFrames defaultOptions st.sent_data da false ++
            positionFrames defaultOptions st.sent_data da false ++
            lapsFrames defaultOptions st.sent_data da false)⟩⟩) := by
    unfold send_notification
    rw [if_pos hne]
  constructor
  · simp only [process_data, hshown, hbuilt, hsend]
    simp [countStartSends]
  · simp only [process_data, hshown, hbuilt, hsend, hbf]

/-- C6: over any run of more than one consecutive cycle whose snapshots
all carry exactly the start-hidden bit (and no other flag bits), started
with a fresh guard and a non-critical last-transmitted payload (the state
`connected` leaves behind) and a working transport, exactly one sent
payload contains the start frame; the guard comes out latched and only
the `connected` transition resets it. -/
theorem start_hidden_once (driver : Driver) (st : WorkerState)
    (das : List Data) (id : String)
    (hshown : st.start_hidden_shown = false)
    (hprev : ∀ m, st.previous_data_sent = some m → m.priority ≠ "critical")
    (hlen : 1 < das.length)
    (hflags : ∀ d ∈ das, d.flags = Flags.start_hidden) :
    countStartSends
      (runCycles defaultOptions driver st das (SendRes.success id)).1 = 1 ∧
    (runCycles defaultOptions driver st das
      (SendRes.success id)).2.start_hidden_shown = true ∧
    (∀ (opts : Options) (roster : List RosterEntry) (idx : Int) (d0 : Driver)
        (st2 : WorkerState) (res : SendRes)
        (out : Driver × List Notification × WorkerState),
      connectedStep opts roster idx d0 st2 res = some out →
      out.2.2.start_hidden_shown = false) := by
  cases das with
  | nil => simp at hlen
  | cons da rest =>
    have hda := hflags da (List.mem_cons_self da rest)
    have h1 := cycle_start_fires driver st da id hshown hda hprev
    have h2 := runCycles_noStart defaultOptions driver
      (process_data defaultOptions driver st da (SendRes.success id)).2 rest
      (SendRes.success id) h1.2
    refine ⟨?_, ?_, ?_⟩
    · simp only [runCycles]
      rw [countStartSends_append, h1.1, h2.1]
    · simp only [runCycles]
      exact h2.2
    · intro opts roster idx d0 st2 res out h
      unfold connectedStep at h
      split at h
      · cases h
      · rw [Option.some_inj] at h
        subst h
        rfl

/-- Witness: two consecutive start-hidden cycles from a fresh state send
the start frame exactly once. -/
theorem start_hidden_once_witness :
    countStartSends
      (runCycles defaultOptions cexDriver {} [c6d, c6d]
        (SendRes.success "9")).1 = 1 ∧
    (runCycles defaultOptions cexDriver {} [c6d, c6d]
      (SendRes.success "9")).2.start_hidden_shown = true ∧
    (∀ (opts : Options) (roster : List RosterEntry) (idx : Int) (d0 : Driver)
        (st2 : WorkerState) (res : SendRes)
        (out : Driver × List Notification × WorkerState),
      connectedStep opts roster idx d0 st2 res = some out →
      out.2.2.start_hidden_shown = false) :=
  start_hidden_once cexDriver {} [c6d, c6d] "9" rfl (fun m h => nomatch h)
    (by decide) (by decide)

/-- Half-even rounding never drops below the floor. -/
theorem roundHalfEven_ge_floor (q : ℚ) : ⌊q⌋ ≤ roundHalfEven q := by
  simp only [roundHalfEven]
  repeat' split
  all_goals omega

/-- Half-even rounding never exceeds the floor plus one. -/
theorem roundHalfEven_le_succ (q : ℚ) : roundHalfEven q ≤ ⌊q⌋ + 1 := by
  simp only [roundHalfEven]
  repeat' split
  all_goals omega

/-- Evaluation of half-even rounding below the tie. -/
theorem roundHalfEven_eval (q : ℚ) (f : ℤ) (hf : ⌊q⌋ = f)
    (hlt : q - f < 1/2) : roundHalfEven q = f := by
  unfold roundHalfEven
  rw [hf, if_pos hlt]

/-- Evaluation of half-even rounding above the tie. -/
theorem roundHalfEven_eval_up (q : ℚ) (f : ℤ) (hf : ⌊q⌋ = f)
    (hgt : 1/2 < q - f) : roundHalfEven q = f + 1 := by
  unfold roundHalfEven
  rw [hf, if_neg (by linarith), if_pos hgt]

/-- The divmod seconds remainder is non-negative. -/
theorem secPart_nonneg (t : ℚ) : 0 ≤ secPart t := by
  unfold secPart minutesPart
  have h := Int.floor_le (t / 60)
  have h2 : (60:ℚ) * ⌊t/60⌋ ≤ t := by
    calc (60:ℚ) * ⌊t/60⌋ ≤ 60 * (t/60) := by linarith
    _ = t := by ring
  linarith

/-- The divmod seconds remainder is below 60. -/
theorem secPart_lt_60 (t : ℚ) : secPart t < 60 := by
  unfold secPart minutesPart
  have h := Int.lt_floor_add_one (t / 60)
  have h2 : t < 60 * ⌊t/60⌋ + 60 := by
    calc t = 60 * (t/60) := by ring
    _ < 60 * (↑⌊t/60⌋ + 1) := by linarith
    _ = 60 * ⌊t/60⌋ + 60 := by ring
  linarith

/-- The rounded thousandths value is non-negative. -/
theorem secRound_nonneg (t : ℚ) : 0 ≤ secRound t := by
  unfold secRound
  have h1 : (0:ℤ) ≤ ⌊secPart t * 1000⌋ := by
    rw [Int.le_floor]
    push_cast
    nlinarith [secPart_nonneg t]
  have h2 := roundHalfEven_ge_floor (secPart t * 1000)
  omega

/-- The rounded thousandths value never exceeds 60000. -/
theorem secRound_le (t : ℚ) : secRound t ≤ 60000 := by
  unfold secRound
  have h1 : ⌊secPart t * 1000⌋ < 60000 := by
    rw [Int.floor_lt]
    push_cast
    nlinarith [secPart_lt_60 t]
  have h2 := roundHalfEven_le_succ (secPart t * 1000)
  omega

/-- Seconds of at least 10 round to at least 10000 thousandths. -/
theorem secRound_ge_of (t : ℚ) (h : 10 ≤ secPart t) : 10000 ≤ secRound t := by
  unfold secRound
  have h1 : (10000:ℤ) ≤ ⌊secPart t * 1000⌋ := by
    rw [Int.le_floor]
    push_cast
    nlinarith
  have h2 := roundHalfEven_ge_floor (secPart t * 1000)
  omega

/-- Rendering a decimal below ten takes one character. -/
theorem toString_len_one {k : Nat} (h : k ≤ 9) : (toString k).length = 1 := by
  interval_cases k <;> rfl

/-- Rendering a decimal between 10 and 60 takes two characters. -/
theorem toString_len_two {k : Nat} (h1 : 10 ≤ k) (h2 : k ≤ 60) :
    (toString k).length = 2 := by
  interval_cases k <;> rfl

/-- `fmt3` of the seconds remainder in terms of the rounded thousandths. -/
theorem fmt3_secPart (t : ℚ) :
    fmt3 (secPart t) =
      toString ((secRound t).toNat / 1000) ++ "." ++
        pad3 ((secRound t).toNat % 1000) := rfl

/-- The rendered lap time splits into the minutes, the colon, and the
padded seconds block. -/
theorem format_decomp (t : ℚ) :
    format_best_laptime t =
      toString (minutesPart t).toNat ++ ":" ++
        ((if secPart t < 10 then "0" else "") ++ fmt3 (secPart t)) := by
  unfold format_best_laptime
  split
  case isTrue h =>
    rw [if_pos h]
    have h2 : (":0" : String) = ":" ++ "0" := rfl
    rw [h2, String.append_assoc, String.append_assoc, String.append_assoc]
  case isFalse h =>
    rw [if_neg h]
    rfl

/-- Away from the rounding boundary the rendered integer seconds occupy
exactly two characters. -/
theorem secondsIntString_len (t : ℚ)
    (h : secRound t < 10000 ∨ 10 ≤ secPart t) :
    (secondsIntString t).length = 2 := by
  unfold secondsIntString
  rcases h with h | h
  · by_cases hs : secPart t < 10
    · rw [if_pos hs, String.length_append]
      have h0 := secRound_nonneg t
      have hk : (secRound t).toNat / 1000 ≤ 9 := by omega
      rw [toString_len_one hk]
      rfl
    · exact absurd (secRound_ge_of t (le_of_not_lt hs)) (by omega)

  · rw [if_neg (not_lt.mpr h), String.length_append]
    have h0 := secRound_nonneg t
    have h60 := secRound_le t
    have h10 := secRound_ge_of t h
    have hk1 : 10 ≤ (secRound t).toNat / 1000 := by omega
    have hk2 : (secRound t).toNat / 1000 ≤ 60 := by omega
    rw [toString_len_two hk1 hk2]
    rfl

/-- Below ten seconds the rendered lap time evaluates from the minutes
and the rounded thousandths. -/
theorem format_eval_lt (t : ℚ) (m n : ℤ) (hm : minutesPart t = m)
    (hs : secPart t < 10) (hn : secRound t = n) :
    format_best_laptime t =
      toString m.toNat ++ ":0" ++
        (toString (n.toNat / 1000) ++ "." ++ pad3 (n.toNat % 1000)) := by
  unfold format_best_laptime
  rw [if_pos hs, hm, fmt3_secPart, hn]

/-- `divmod(63.4, 60)` has quotient 1. -/
theorem minutesPart_634 : minutesPart (317/5 : ℚ) = 1 := by
  norm_num [minutesPart, Int.floor_eq_iff]

/-- `divmod(63.4, 60)` has remainder 3.4. -/
theorem secPart_634 : secPart (317/5 : ℚ) = 17/5 := by
  unfold secPart
  rw [minutesPart_634]
  push_cast
  norm_num

/-- 3.4 seconds round to 3400 thousandths. -/
theorem secRound_634 : secRound (317/5 : ℚ) = 3400 := by
  unfold secRound
  rw [secPart_634]
  have he : (17:ℚ)/5 * 1000 = 3400 := by norm_num
  rw [he]
  exact roundHalfEven_eval 3400 3400 (by norm_num [Int.floor_eq_iff]) (by norm_num)

/-- `divmod(9.05, 60)` has quotient 0. -/
theorem minutesPart_905 : minutesPart (181/20 : ℚ) = 0 := by
  norm_num [minutesPart, Int.floor_eq_iff]

/-- `divmod(9.05, 60)` has remainder 9.05. -/
theorem secPart_905 : secPart (181/20 : ℚ) = 181/20 := by
  unfold secPart
  rw [minutesPart_905]
  push_cast
  norm_num

/-- 9.05 seconds round to 9050 thousandths. -/
theorem secRound_905 : secRound (181/20 : ℚ) = 9050 := by
  unfold secRound
  rw [secPart_905]
  have he : (181:ℚ)/20 * 1000 = 9050 := by norm_num
  rw [he]
  exact roundHalfEven_eval 9050 9050 (by norm_num [Int.floor_eq_iff]) (by norm_num)

/-- `divmod(9.9996, 60)` has quotient 0. -/
theorem minutesPart_99996 : minutesPart (24999/2500 : ℚ) = 0 := by
  norm_num [minutesPart, Int.floor_eq_iff]

/-- `divmod(9.9996, 60)` has remainder 9.9996. -/
theorem secPart_99996 : secPart (24999/2500 : ℚ) = 24999/2500 := by
  unfold secPart
  rw [minutesPart_99996]
  push_cast
  norm_num

/-- 9.9996 seconds round up to 10000 thousandths. -/
theorem secRound_99996 : secRound (24999/2500 : ℚ) = 10000 := by
  unfold secRound
  rw [secPart_99996]
  have he : (24999:ℚ)/2500 * 1000 = 49998/5 := by norm_num
  rw [he]
  have h := roundHalfEven_eval_up (49998/5) 9999 (by norm_num [Int.floor_eq_iff])
    (by norm_num)
  omega

/-- C7 (amended): lap times render as minutes, colon, and a seconds
block rounded to milliseconds; formatting 63.4 gives "1:03.400" and 9.05
gives "0:09.050"; formatting is deterministic; and the integer seconds
are zero-padded to exactly two digits whenever the sub-minute remainder
does not round up across the 10-second boundary. -/
theorem laptime_format :
    format_best_laptime (317/5 : ℚ) = "1:03.400" ∧
    format_best_laptime (181/20 : ℚ) = "0:09.050" ∧
    (∀ a b : ℚ, a = b → format_best_laptime a = format_best_laptime b) ∧
    (∀ t : ℚ, 0 < t →
      format_best_laptime t =
        toString (minutesPart t).toNat ++ ":" ++
          ((if secPart t < 10 then "0" else "") ++ fmt3 (secPart t)) ∧
      (secRound t < 10000 ∨ 10 ≤ secPart t →
        (secondsIntString t).length = 2)) := by
  refine ⟨?_, ?_, fun a b h => by rw [h],
    fun t ht => ⟨format_decomp t, secondsIntString_len t⟩⟩
  · rw [format_eval_lt _ 1 3400 minutesPart_634
      (by rw [secPart_634]; norm_num) secRound_634]
    decide
  · rw [format_eval_lt _ 0 9050 minutesPart_905
      (by rw [secPart_905]; norm_num) secRound_905]
    decide

/-- Witness: 9.05 is a positive lap time away from the boundary, so its
rendering carries two-digit integer seconds. -/
theorem laptime_format_witness :
    (format_best_laptime (181/20 : ℚ) =
      toString (minutesPart (181/20 : ℚ)).toNat ++ ":" ++
        ((if secPart (181/20 : ℚ) < 10 then "0" else "") ++
          fmt3 (secPart (181/20 : ℚ)))) ∧
    (secondsIntString (181/20 : ℚ)).length = 2 := by
  have h := laptime_format.2.2.2 (181/20 : ℚ) (by norm_num)
  exact ⟨h.1, h.2 (Or.inl (by rw [secRound_905]; norm_num))⟩

/-- C7 counterexample: the positive lap time 9.9996 renders as
"0:010.000" — its unrounded seconds sit below 10 so the zero pad is
emitted, but the milliseconds round up to 10.000, leaving three integer
second digits instead of the claimed two. -/
theorem laptime_format_cex :
    format_best_laptime (24999/2500 : ℚ) = "0:010.000" ∧
    (secondsIntString (24999/2500 : ℚ)).length = 3 ∧
    (0:ℚ) < 24999/2500 := by
  refine ⟨?_, ?_, by norm_num⟩
  · rw [format_eval_lt _ 0 10000 minutesPart_99996
      (by rw [secPart_99996]; norm_num) secRound_99996]
    decide
  · unfold secondsIntString
    rw [if_pos (by rw [secPart_99996]; norm_num), secRound_99996]
    decide

end LametricIracing
